import Mathlib

/-!
Verification of the weather-to-playlist recommender (src/final_copy.py).

The Python program is a thin orchestration of three external services
(weather API, catalog search/features API, user-playlist API) behind a
form UI.  We shallowly embed its pure logic: external HTTP endpoints
become explicit oracle functions or response values passed as
parameters, Python floats become rationals, JSON dictionaries become
structures or association lists with last-entry-wins lookup, and a
propagated exception becomes the error branch of an Except value.
-/

/-- A track record as returned by catalog search
(id, name, artists, album art URL, external link, playable URI). -/
structure Track where
  id : String
  name : String
  artists : List String
  album_art_url : String
  external_url : String
  uri : String
deriving DecidableEq, Repr

/-- One audio-feature record: keyed by track id; the tempo field may be
absent from the record (Python reads it with a get-with-default of 0). -/
structure Feature where
  id : String
  tempo : Option Rat
deriving DecidableEq, Repr

/-- A parsed weather reading: the primary categorical condition
(weather[0].main in the JSON), its description and the temperature. -/
structure WeatherReading where
  city : String
  main : String
  description : String
  temp : Rat
deriving DecidableEq, Repr

/-- The weather endpoint response as consumed by the run block: the cod
status field plus the parsed reading. -/
structure WeatherResp where
  cod : Int
  reading : WeatherReading
deriving DecidableEq, Repr

/-- The two app-token-authenticated catalog endpoints, as oracles: search
returns a list of tracks (empty on any failure, per the try/except in
search_tracks), audioFeatures returns a list whose entries may be null
(empty on any failure, per the try/except in get_audio_features). -/
structure SpotifyApi where
  search : String → Nat → List Track
  audioFeatures : List String → List (Option Feature)

/-- Python str.lower applied character by character (the condition codes
this program lowers are plain ASCII words). -/
def pyLower (s : String) : String :=
  ⟨s.data.map Char.toLower⟩

/-- weather_to_keyword: lower-case the primary condition and look it up
in the fixed 5-entry table, defaulting to a chill-mood keyword. -/
def weather_to_keyword (weather : WeatherReading) : String :=
  let desc := pyLower weather.main
  if desc = "clear" then "happy pop bright"
  else if desc = "clouds" then "indie chill"
  else if desc = "rain" then "lofi rainy chill"
  else if desc = "snow" then "cozy acoustic"
  else if desc = "thunderstorm" then "dark edm"
  else "chill mood"

/-- Last-entry-wins lookup of a string key in an association list,
mirroring a Python dict built left to right (later duplicates
overwrite) and then read with dict.get. -/
def lookupLast (k : String) : List (String × String) → Option String
  | [] => none
  | (k2, v) :: rest =>
    match lookupLast k rest with
    | some r => some r
    | none => if k2 = k then some v else none

/-- What the token endpoint interaction can look like from the caller
side: the POST itself raises, the body fails to parse as JSON, or a
parsed JSON object (its string fields as an association list). -/
inductive TokenResponse where
  | netError : TokenResponse
  | badJson : TokenResponse
  | jsonBody : List (String × String) → TokenResponse
deriving DecidableEq, Repr

/-- get_app_token: posts to the token endpoint with no try/except, then
reads access_token with dict.get.  An exception from the request or
from JSON parsing propagates (Except.error); only a well-formed body
is reduced to an optional token. -/
def get_app_token : TokenResponse → Except String (Option String)
  | TokenResponse.netError => Except.error "requests.post raised"
  | TokenResponse.badJson => Except.error "response body is not JSON"
  | TokenResponse.jsonBody obj => Except.ok (lookupLast "access_token" obj)

/-- search_tracks: one catalog-search call through the app-token oracle. -/
def search_tracks (api : SpotifyApi) (query : String) (limit : Nat) : List Track :=
  api.search query limit

/-- get_audio_features: one batched audio-features call; entries aligned
with the requested ids may be null. -/
def get_audio_features (api : SpotifyApi) (ids : List String) : List (Option Feature) :=
  api.audioFeatures ids

/-- The feature dictionary of generate_tempo: keep the non-null entries,
in order (a Python dict comprehension filtered on truthiness). -/
def buildFmap (feats : List (Option Feature)) : List Feature :=
  feats.filterMap (fun f => f)

/-- dict.get on the feature dictionary: the last entry with the given id
wins, as in a Python dict built left to right. -/
def dictGet (fmap : List Feature) (i : String) : Option Feature :=
  match fmap with
  | [] => none
  | f :: rest =>
    match dictGet rest i with
    | some g => some g
    | none => if f.id = i then some f else none

/-- The per-track test of generate_tempo: the track passes when its id
has a (non-null) feature record whose tempo, defaulted to 0 when the
field is absent, is at least the minimum BPM. -/
def tempoPass (fmap : List Feature) (min_bpm : Rat) (t : Track) : Bool :=
  match dictGet fmap t.id with
  | some f => decide (min_bpm ≤ f.tempo.getD 0)
  | none => false

/-- generate_basic: search with exactly the mood keyword. -/
def generate_basic (api : SpotifyApi) (weather : WeatherReading) (track_limit : Nat) : List Track :=
  let kw := weather_to_keyword weather
  search_tracks api kw track_limit

/-- The oversampled candidate pool of generate_tempo: mood keyword plus
the fixed boost terms, fetched at three times the track limit. -/
def tempoBase (api : SpotifyApi) (weather : WeatherReading) (track_limit : Nat) : List Track :=
  search_tracks api (weather_to_keyword weather ++ " upbeat dance") (track_limit * 3)

/-- The feature dictionary generate_tempo builds for its candidate pool:
batch-fetch features for all candidate ids, drop null entries. -/
def tempoFmap (api : SpotifyApi) (weather : WeatherReading) (track_limit : Nat) : List Feature :=
  buildFmap (get_audio_features api ((tempoBase api weather track_limit).map Track.id))

/-- generate_tempo: filter the oversampled pool by the tempo test,
falling back to the first track_limit unfiltered candidates when the
filtered list is empty, and truncate to track_limit. -/
def generate_tempo (api : SpotifyApi) (weather : WeatherReading) (min_bpm : Rat) (track_limit : Nat) : List Track :=
  let base := tempoBase api weather track_limit
  let result := base.filter (tempoPass (tempoFmap api weather track_limit) min_bpm)
  if result.isEmpty then base.take track_limit else result.take track_limit

/-- generate_custom: search with the mood keyword followed by the user
keyword, separated by a space. -/
def generate_custom (api : SpotifyApi) (weather : WeatherReading) (user_kw : String) (track_limit : Nat) : List Track :=
  let kw := weather_to_keyword weather
  search_tracks api (kw ++ " " ++ user_kw) track_limit

/-- The three recommendation modes of the selectbox. -/
inductive Mode where
  | basic : Mode
  | tempo : Mode
  | custom : Mode
deriving DecidableEq, Repr

/-- The observable outcome of one run of the button block: error
messages shown, warning messages shown, whether the run stopped before
rendering, and the tracks actually rendered to the user. -/
structure RunTrace where
  errorMsgs : List String
  warningMsgs : List String
  halted : Bool
  tracks : List Track
deriving DecidableEq, Repr

/-- The button block: fetch weather; on an absent response or a cod
other than 200, show the Korean weather error and stop; otherwise run
the mode-selected generator; on an empty result show the no-results
warning and stop; otherwise render the tracks. -/
def run_block (api : SpotifyApi) (weather : Option WeatherResp) (mode : Mode)
    (track_limit : Nat) (min_bpm : Rat) (user_kw : String) : RunTrace :=
  match weather with
  | none => ⟨["날씨 정보를 찾을 수 없습니다."], [], true, []⟩
  | some w =>
    if w.cod ≠ 200 then ⟨["날씨 정보를 찾을 수 없습니다."], [], true, []⟩
    else
      let tracks :=
        match mode with
        | Mode.basic => generate_basic api w.reading track_limit
        | Mode.tempo => generate_tempo api w.reading min_bpm track_limit
        | Mode.custom => generate_custom api w.reading user_kw track_limit
      if tracks.isEmpty then ⟨[], ["추천 결과가 없습니다."], true, []⟩
      else ⟨[], [], false, tracks⟩

/-- A local timestamp to minute precision, exactly the fields the
playlist name formats. -/
structure Timestamp where
  month : Nat
  day : Nat
  hour : Nat
  minute : Nat
deriving DecidableEq, Repr

/-- Zero-pad a number to two digits, as the strftime fields %m, %d, %H
and %M do. -/
def pad2 (n : Nat) : String :=
  if n < 10 then "0" ++ toString n else toString n

/-- strftime with format string percent-m slash percent-d space
percent-H colon percent-M, applied to the current local time. -/
def strftime_md_hm (ts : Timestamp) : String :=
  pad2 ts.month ++ "/" ++ pad2 ts.day ++ " " ++ pad2 ts.hour ++ ":" ++ pad2 ts.minute

/-- The playlist-create request issued to the user-authorized client:
owner, playlist name, public flag, description. -/
structure CreateReq where
  user : String
  name : String
  isPublic : Bool
  description : String
deriving DecidableEq, Repr

/-- The single batched add-items request: target playlist id and the
ordered URIs to append. -/
structure AddItemsReq where
  playlistId : String
  uris : List String
deriving DecidableEq, Repr

/-- The playlist record the create endpoint returns: its id and its
shareable external spotify link. -/
structure SpPlaylist where
  id : String
  link : String
deriving DecidableEq, Repr

/-- The delegated-authorization client as an oracle: the authenticated
user id (sp.me) and the create endpoint. -/
structure UserClient where
  meId : String
  createPlaylist : CreateReq → SpPlaylist

/-- What one call of create_playlist_auto does, as a trace: the create
request it issued, the add-items request it issued, and the link it
returned. -/
structure PublishResult where
  createReq : CreateReq
  addReq : AddItemsReq
  link : String
deriving DecidableEq, Repr

/-- create_playlist_auto: resolve the user, create a private playlist
named with the city and the current timestamp, append all supplied
URIs in one call, and return the created playlist link. -/
def create_playlist_auto (sp : UserClient) (now : Timestamp) (city : String) (ids : List String) : PublishResult :=
  let user_id := sp.meId
  let req : CreateReq :=
    ⟨user_id, "Weather Mix - " ++ city ++ " (" ++ strftime_md_hm now ++ ")", false,
      "날씨 기반 자동 추천 플레이리스트"⟩
  let playlist := sp.createPlaylist req
  ⟨req, ⟨playlist.id, ids⟩, playlist.link⟩

/-- Helper: generate_tempo written with its pool, filter and fallback
exposed. -/
theorem generate_tempo_eq (api : SpotifyApi) (w : WeatherReading) (min_bpm : Rat) (track_limit : Nat) :
    generate_tempo api w min_bpm track_limit =
      if ((tempoBase api w track_limit).filter (tempoPass (tempoFmap api w track_limit) min_bpm)).isEmpty
      then (tempoBase api w track_limit).take track_limit
      else ((tempoBase api w track_limit).filter (tempoPass (tempoFmap api w track_limit) min_bpm)).take track_limit :=
  rfl

/-- Helper: the two-digit padding always yields a string of length 2 on
inputs up to 99. -/
theorem pad2_length (n : Nat) (h : n ≤ 99) : (pad2 n).length = 2 := by
  interval_cases n <;> rfl

/-- Claim C3: the Mood Mapper is a pure, total Lean function on
WeatherReading; on every input it returns one of the six possible mood
keywords, so it never fails. -/
theorem mood_mapper_total (w : WeatherReading) :
    weather_to_keyword w ∈
      ["happy pop bright", "indie chill", "lofi rainy chill", "cozy acoustic",
        "dark edm", "chill mood"] := by
  simp only [weather_to_keyword]
  split_ifs <;> simp

/-- Claim C6: the mapper sends each of the five known conditions to its
fixed keyword (clear to happy pop bright, clouds, rain, snow,
thunderstorm likewise), sends every unmapped condition to the default
chill mood, and Basic mode searches with exactly the mood keyword. -/
theorem mood_table_and_basic_query (city desc cond : String) (temp : Rat)
    (api : SpotifyApi) (w : WeatherReading) (limit : Nat) :
    weather_to_keyword ⟨city, "clear", desc, temp⟩ = "happy pop bright"
    ∧ weather_to_keyword ⟨city, "clouds", desc, temp⟩ = "indie chill"
    ∧ weather_to_keyword ⟨city, "rain", desc, temp⟩ = "lofi rainy chill"
    ∧ weather_to_keyword ⟨city, "snow", desc, temp⟩ = "cozy acoustic"
    ∧ weather_to_keyword ⟨city, "thunderstorm", desc, temp⟩ = "dark edm"
    ∧ (pyLower cond ∉ (["clear", "clouds", "rain", "snow", "thunderstorm"] : List String) →
        weather_to_keyword ⟨city, cond, desc, temp⟩ = "chill mood")
    ∧ generate_basic api w limit = search_tracks api (weather_to_keyword w) limit := by
  refine ⟨rfl, rfl, rfl, rfl, rfl, ?_, rfl⟩
  intro h
  have h1 : pyLower cond ≠ "clear" := by intro hc; apply h; rw [hc]; decide
  have h2 : pyLower cond ≠ "clouds" := by intro hc; apply h; rw [hc]; decide
  have h3 : pyLower cond ≠ "rain" := by intro hc; apply h; rw [hc]; decide
  have h4 : pyLower cond ≠ "snow" := by intro hc; apply h; rw [hc]; decide
  have h5 : pyLower cond ≠ "thunderstorm" := by intro hc; apply h; rw [hc]; decide
  simp [weather_to_keyword, h1, h2, h3, h4, h5]

/-- Witness for C6: the unmapped condition haze yields the default
keyword. -/
theorem mood_table_and_basic_query_witness :
    (pyLower "haze" ∉ (["clear", "clouds", "rain", "snow", "thunderstorm"] : List String))
    ∧ weather_to_keyword ⟨"Seoul", "haze", "", 0⟩ = "chill mood" :=
  ⟨by decide,
    (mood_table_and_basic_query "Seoul" "" "haze" 0 ⟨fun _ _ => [], fun _ => []⟩
      ⟨"Seoul", "haze", "", 0⟩ 10).2.2.2.2.2.1 (by decide)⟩

/-- Claim C4: in Tempo mode a non-empty candidate pool yields a
non-empty result, and when no candidate passes the tempo test the
result is exactly the first track_limit entries of the unfiltered
pool. -/
theorem tempo_nonempty_and_fallback (api : SpotifyApi) (w : WeatherReading)
    (min_bpm : Rat) (track_limit : Nat) (hl : 1 ≤ track_limit) :
    (tempoBase api w track_limit ≠ [] → generate_tempo api w min_bpm track_limit ≠ [])
    ∧ ((∀ t ∈ tempoBase api w track_limit,
          tempoPass (tempoFmap api w track_limit) min_bpm t = false) →
        generate_tempo api w min_bpm track_limit = (tempoBase api w track_limit).take track_limit) := by
  constructor
  · intro hbase
    rw [generate_tempo_eq]
    split
    · rw [Ne, List.take_eq_nil_iff]
      push_neg
      exact ⟨by omega, hbase⟩
    · rename_i hne
      rw [Ne, List.take_eq_nil_iff]
      push_neg
      refine ⟨by omega, ?_⟩
      intro hnil
      rw [hnil] at hne
      simp at hne
  · intro hall
    rw [generate_tempo_eq]
    rw [if_pos]
    rw [List.isEmpty_iff, List.filter_eq_nil_iff]
    intro t ht
    simp [hall t ht]

/-- Witness for C4: a one-track pool with no feature data stays
non-empty through the tempo path. -/
theorem tempo_nonempty_and_fallback_witness :
    (1 ≤ 15
      ∧ tempoBase ⟨fun _ _ => [⟨"a", "A", ["X"], "art", "url", "uri"⟩], fun _ => []⟩
          ⟨"Seoul", "clear", "", 0⟩ 15 ≠ [])
    ∧ generate_tempo ⟨fun _ _ => [⟨"a", "A", ["X"], "art", "url", "uri"⟩], fun _ => []⟩
        ⟨"Seoul", "clear", "", 0⟩ 110 15 ≠ [] :=
  ⟨⟨by decide, by decide⟩,
    (tempo_nonempty_and_fallback _ _ 110 15 (by decide)).1 (by decide)⟩

/-- Claim C7: when every candidate of the pool passes the tempo test,
Tempo mode returns exactly the first track_limit pool entries, in the
original order. -/
theorem tempo_all_pass_order (api : SpotifyApi) (w : WeatherReading)
    (min_bpm : Rat) (track_limit : Nat)
    (hall : ∀ t ∈ tempoBase api w track_limit,
      tempoPass (tempoFmap api w track_limit) min_bpm t = true) :
    generate_tempo api w min_bpm track_limit = (tempoBase api w track_limit).take track_limit := by
  rw [generate_tempo_eq]
  have hf : (tempoBase api w track_limit).filter (tempoPass (tempoFmap api w track_limit) min_bpm)
      = tempoBase api w track_limit := List.filter_eq_self.mpr hall
  rw [hf]
  split <;> rfl

/-- Witness for C7: a pool whose single track has tempo 128 passes a
110 BPM threshold and is returned as the truncated pool. -/
theorem tempo_all_pass_order_witness :
    (∀ t ∈ tempoBase ⟨fun _ _ => [⟨"a", "A", ["X"], "art", "url", "uri"⟩],
        fun _ => [some ⟨"a", some 128⟩]⟩ ⟨"Seoul", "clear", "", 0⟩ 15,
      tempoPass (tempoFmap ⟨fun _ _ => [⟨"a", "A", ["X"], "art", "url", "uri"⟩],
        fun _ => [some ⟨"a", some 128⟩]⟩ ⟨"Seoul", "clear", "", 0⟩ 15) 110 t = true)
    ∧ generate_tempo ⟨fun _ _ => [⟨"a", "A", ["X"], "art", "url", "uri"⟩],
        fun _ => [some ⟨"a", some 128⟩]⟩ ⟨"Seoul", "clear", "", 0⟩ 110 15
      = (tempoBase ⟨fun _ _ => [⟨"a", "A", ["X"], "art", "url", "uri"⟩],
          fun _ => [some ⟨"a", some 128⟩]⟩ ⟨"Seoul", "clear", "", 0⟩ 15).take 15 :=
  ⟨by decide, tempo_all_pass_order _ _ 110 15 (by decide)⟩

/-- Claim C10: a feature record present in the dictionary but without a
tempo field is read as tempo 0, so for any threshold of at least 60
BPM the track fails the tempo test and cannot appear in the filtered
list (only via the fallback). -/
theorem missing_tempo_field_excluded (api : SpotifyApi) (w : WeatherReading)
    (track_limit : Nat) (min_bpm : Rat) (t : Track) (f : Feature)
    (hf : dictGet (tempoFmap api w track_limit) t.id = some f)
    (hno : f.tempo = none) (h60 : 60 ≤ min_bpm) (h180 : min_bpm ≤ 180) :
    f.tempo.getD 0 = 0
    ∧ tempoPass (tempoFmap api w track_limit) min_bpm t = false
    ∧ t ∉ (tempoBase api w track_limit).filter
        (tempoPass (tempoFmap api w track_limit) min_bpm) := by
  have hg : f.tempo.getD 0 = 0 := by rw [hno]; rfl
  have hp : tempoPass (tempoFmap api w track_limit) min_bpm t = false := by
    unfold tempoPass
    rw [hf]
    simp only [hg, decide_eq_false_iff_not]
    intro hle
    linarith
  refine ⟨hg, hp, ?_⟩
  intro hmem
  have := (List.mem_filter.mp hmem).2
  rw [hp] at this
  exact Bool.false_ne_true this

/-- Witness for C10: a track whose feature record has no tempo field is
kept out of the filtered list at 110 BPM. -/
theorem missing_tempo_field_excluded_witness :
    (dictGet (tempoFmap ⟨fun _ _ => [⟨"a", "A", ["X"], "art", "url", "uri"⟩],
        fun _ => [some ⟨"a", none⟩]⟩ ⟨"Seoul", "clear", "", 0⟩ 15) "a" = some ⟨"a", none⟩
      ∧ (60 : Rat) ≤ 110 ∧ (110 : Rat) ≤ 180)
    ∧ ⟨"a", "A", ["X"], "art", "url", "uri"⟩ ∉
        (tempoBase ⟨fun _ _ => [⟨"a", "A", ["X"], "art", "url", "uri"⟩],
          fun _ => [some ⟨"a", none⟩]⟩ ⟨"Seoul", "clear", "", 0⟩ 15).filter
          (tempoPass (tempoFmap ⟨fun _ _ => [⟨"a", "A", ["X"], "art", "url", "uri"⟩],
            fun _ => [some ⟨"a", none⟩]⟩ ⟨"Seoul", "clear", "", 0⟩ 15) 110) :=
  ⟨⟨by decide, by decide, by decide⟩,
    (missing_tempo_field_excluded _ _ 15 110 ⟨"a", "A", ["X"], "art", "url", "uri"⟩
      ⟨"a", none⟩ (by decide) rfl (by decide) (by decide)).2.2⟩

/-- Counterexample to C1 as stated: with a one-track pool whose only
feature entry is null, nothing passes the filter, so the empty-filter
fallback returns that track even though its id has no feature entry. -/
theorem tempo_fallback_admits_featureless :
    generate_tempo ⟨fun _ _ => [⟨"t1", "Song", ["X"], "art", "url", "uri"⟩], fun _ => [none]⟩
        ⟨"Seoul", "clear", "", 0⟩ 110 5
      = [⟨"t1", "Song", ["X"], "art", "url", "uri"⟩]
    ∧ dictGet (tempoFmap ⟨fun _ _ => [⟨"t1", "Song", ["X"], "art", "url", "uri"⟩], fun _ => [none]⟩
        ⟨"Seoul", "clear", "", 0⟩ 5) "t1" = none := by
  constructor <;> decide

/-- Claim C1 amended: outside the empty-filter fallback the result never
contains a candidate whose id lacks a (non-null) feature entry; every
track of a non-fallback result has an entry in the feature dictionary,
and the filter is a total function on such pools. -/
theorem tempo_filter_excludes_featureless (api : SpotifyApi) (w : WeatherReading)
    (min_bpm : Rat) (track_limit : Nat) (t : Track)
    (hne : (tempoBase api w track_limit).filter
        (tempoPass (tempoFmap api w track_limit) min_bpm) ≠ [])
    (hmem : t ∈ generate_tempo api w min_bpm track_limit) :
    ∃ f, dictGet (tempoFmap api w track_limit) t.id = some f := by
  rw [generate_tempo_eq] at hmem
  rw [if_neg (by simpa [List.isEmpty_iff] using hne)] at hmem
  have h2 := List.take_subset _ _ hmem
  have h3 := (List.mem_filter.mp h2).2
  unfold tempoPass at h3
  cases hd : dictGet (tempoFmap api w track_limit) t.id with
  | none => rw [hd] at h3; simp at h3
  | some f => exact ⟨f, rfl⟩

/-- Witness for the amended C1: with one passing track the filtered
result is non-empty and its member has a feature entry. -/
theorem tempo_filter_excludes_featureless_witness :
    ((tempoBase ⟨fun _ _ => [⟨"a", "A", ["X"], "art", "url", "uri"⟩],
        fun _ => [some ⟨"a", some 128⟩]⟩ ⟨"Seoul", "clear", "", 0⟩ 15).filter
        (tempoPass (tempoFmap ⟨fun _ _ => [⟨"a", "A", ["X"], "art", "url", "uri"⟩],
          fun _ => [some ⟨"a", some 128⟩]⟩ ⟨"Seoul", "clear", "", 0⟩ 15) 110) ≠ []
      ∧ ⟨"a", "A", ["X"], "art", "url", "uri"⟩ ∈
          generate_tempo ⟨fun _ _ => [⟨"a", "A", ["X"], "art", "url", "uri"⟩],
            fun _ => [some ⟨"a", some 128⟩]⟩ ⟨"Seoul", "clear", "", 0⟩ 110 15)
    ∧ ∃ f, dictGet (tempoFmap ⟨fun _ _ => [⟨"a", "A", ["X"], "art", "url", "uri"⟩],
        fun _ => [some ⟨"a", some 128⟩]⟩ ⟨"Seoul", "clear", "", 0⟩ 15)
        (Track.id ⟨"a", "A", ["X"], "art", "url", "uri"⟩) = some f :=
  ⟨⟨by decide, by decide⟩,
    tempo_filter_excludes_featureless _ _ 110 15 ⟨"a", "A", ["X"], "art", "url", "uri"⟩
      (by decide) (by decide)⟩

/-- Claim C5: under the search-endpoint contract that at most the
requested limit of tracks comes back, every mode of the run block
renders at most track_limit tracks for every slider value. -/
theorem track_list_bounded (api : SpotifyApi)
    (hsearch : ∀ q n, (api.search q n).length ≤ n)
    (weather : Option WeatherResp) (mode : Mode) (track_limit : Nat)
    (min_bpm : Rat) (user_kw : String)
    (h5 : 5 ≤ track_limit) (h30 : track_limit ≤ 30) :
    (run_block api weather mode track_limit min_bpm user_kw).tracks.length ≤ track_limit := by
  have hgen : ∀ r : WeatherReading,
      (generate_basic api r track_limit).length ≤ track_limit
      ∧ (generate_tempo api r min_bpm track_limit).length ≤ track_limit
      ∧ (generate_custom api r user_kw track_limit).length ≤ track_limit := by
    intro r
    refine ⟨hsearch _ _, ?_, hsearch _ _⟩
    rw [generate_tempo_eq]
    split <;> exact List.length_take_le _ _
  cases weather with
  | none => simp [run_block]
  | some w =>
    cases mode with
    | basic =>
      simp only [run_block]
      split
      · simp
      · split
        · simp
        · exact (hgen w.reading).1
    | tempo =>
      simp only [run_block]
      split
      · simp
      · split
        · simp
        · exact (hgen w.reading).2.1
    | custom =>
      simp only [run_block]
      split
      · simp
      · split
        · simp
        · exact (hgen w.reading).2.2

/-- Witness for C5: a search stub that always returns one track keeps a
15-track run within bounds. -/
theorem track_list_bounded_witness :
    ((∀ q n, ((SpotifyApi.mk (fun _ n => if n = 0 then [] else [⟨"a", "A", ["X"], "b", "c", "d"⟩])
        (fun _ => [])).search q n).length ≤ n)
      ∧ 5 ≤ 15 ∧ 15 ≤ 30)
    ∧ (run_block (SpotifyApi.mk (fun _ n => if n = 0 then [] else [⟨"a", "A", ["X"], "b", "c", "d"⟩])
        (fun _ => [])) (some ⟨200, ⟨"Seoul", "clear", "", 0⟩⟩) Mode.basic 15 110 "").tracks.length ≤ 15 :=
  ⟨⟨fun q n => by dsimp only; split <;> simp <;> omega, by decide, by decide⟩,
    track_list_bounded _ (fun q n => by dsimp only; split <;> simp <;> omega)
      (some ⟨200, ⟨"Seoul", "clear", "", 0⟩⟩) Mode.basic 15 110 "" (by decide) (by decide)⟩

/-- Counterexample to C2 as stated: get_app_token has no try/except, so
a raised request or a non-JSON body leaves the function as a
propagated error, not the null sentinel. -/
theorem token_fetch_exception_propagates :
    get_app_token TokenResponse.netError = Except.error "requests.post raised"
    ∧ get_app_token TokenResponse.badJson = Except.error "response body is not JSON"
    ∧ (get_app_token TokenResponse.netError).isOk = false
    ∧ (get_app_token TokenResponse.badJson).isOk = false :=
  ⟨rfl, rfl, rfl, rfl⟩

/-- Claim C2 amended: the token fetch is fail-soft only for a
well-formed JSON body; a parsed body without an access_token field
yields the null sentinel, while an exception from the POST or a
non-JSON body propagates to the caller. -/
theorem token_fetch_partial_fail_soft (obj : List (String × String)) :
    get_app_token (TokenResponse.jsonBody obj) = Except.ok (lookupLast "access_token" obj)
    ∧ (lookupLast "access_token" obj = none →
        get_app_token (TokenResponse.jsonBody obj) = Except.ok none)
    ∧ get_app_token TokenResponse.netError = Except.error "requests.post raised"
    ∧ get_app_token TokenResponse.badJson = Except.error "response body is not JSON" := by
  refine ⟨rfl, ?_, rfl, rfl⟩
  intro h
  simp [get_app_token, h]

/-- Witness for the amended C2: an auth-error JSON body without an
access_token field is reduced to the null sentinel. -/
theorem token_fetch_partial_fail_soft_witness :
    (lookupLast "access_token" [("error", "invalid_client")] = none)
    ∧ get_app_token (TokenResponse.jsonBody [("error", "invalid_client")]) = Except.ok none :=
  ⟨by decide, (token_fetch_partial_fail_soft [("error", "invalid_client")]).2.1 (by decide)⟩

/-- Claim C8: on an absent weather response or a non-200 cod, the run
shows exactly the Korean weather error, halts before rendering, and
its outcome is independent of the catalog service, so no search call
can influence or be needed for it. -/
theorem weather_failure_halts (api api2 : SpotifyApi) (weather : Option WeatherResp)
    (mode : Mode) (track_limit : Nat) (min_bpm : Rat) (user_kw user_kw2 : String)
    (hfail : weather = none ∨ ∃ w, weather = some w ∧ w.cod ≠ 200) :
    run_block api weather mode track_limit min_bpm user_kw
      = ⟨["날씨 정보를 찾을 수 없습니다."], [], true, []⟩
    ∧ run_block api weather mode track_limit min_bpm user_kw
        = run_block api2 weather mode track_limit min_bpm user_kw2 := by
  rcases hfail with h | ⟨w, hw, hcod⟩
  · subst h
    exact ⟨rfl, rfl⟩
  · subst hw
    constructor
    · simp only [run_block]
      rw [if_pos hcod]
    · simp only [run_block]
      rw [if_pos hcod, if_pos hcod]

/-- Witness for C8: a 404 weather response halts with the error message
under two different catalog stubs. -/
theorem weather_failure_halts_witness :
    ((some (WeatherResp.mk 404 ⟨"Seoul", "clear", "", 0⟩) = none
        ∨ ∃ w, some (WeatherResp.mk 404 ⟨"Seoul", "clear", "", 0⟩) = some w ∧ w.cod ≠ 200))
    ∧ run_block ⟨fun _ _ => [], fun _ => []⟩ (some (WeatherResp.mk 404 ⟨"Seoul", "clear", "", 0⟩))
        Mode.basic 15 110 ""
      = ⟨["날씨 정보를 찾을 수 없습니다."], [], true, []⟩
    ∧ run_block ⟨fun _ _ => [], fun _ => []⟩ (some (WeatherResp.mk 404 ⟨"Seoul", "clear", "", 0⟩))
        Mode.basic 15 110 ""
      = run_block ⟨fun _ _ => [⟨"a", "A", ["X"], "b", "c", "d"⟩], fun _ => [none]⟩
          (some (WeatherResp.mk 404 ⟨"Seoul", "clear", "", 0⟩)) Mode.basic 15 110 "kw" :=
  ⟨Or.inr ⟨_, rfl, by decide⟩,
    (weather_failure_halts ⟨fun _ _ => [], fun _ => []⟩
      ⟨fun _ _ => [⟨"a", "A", ["X"], "b", "c", "d"⟩], fun _ => [none]⟩
      (some (WeatherResp.mk 404 ⟨"Seoul", "clear", "", 0⟩)) Mode.basic 15 110 "" "kw"
      (Or.inr ⟨_, rfl, by decide⟩)).1,
    (weather_failure_halts ⟨fun _ _ => [], fun _ => []⟩
      ⟨fun _ _ => [⟨"a", "A", ["X"], "b", "c", "d"⟩], fun _ => [none]⟩
      (some (WeatherResp.mk 404 ⟨"Seoul", "clear", "", 0⟩)) Mode.basic 15 110 "" "kw"
      (Or.inr ⟨_, rfl, by decide⟩)).2⟩

/-- Claim C9: on a valid timestamp the publisher issues one create
request that is private, owned by the authenticated user and named
with the city and an MM/DD HH:MM stamp, issues one add-items request
with exactly the supplied URIs in order against the playlist it just
created, and returns that playlist's link. -/
theorem playlist_publisher_requests (sp : UserClient) (now : Timestamp) (city : String)
    (ids : List String) (hm : now.month ≤ 12) (hd : now.day ≤ 31)
    (hh : now.hour ≤ 23) (hmin : now.minute ≤ 59) :
    (create_playlist_auto sp now city ids).createReq.isPublic = false
    ∧ (∃ stamp : String, stamp.length = 11
        ∧ (create_playlist_auto sp now city ids).createReq.name
            = "Weather Mix - " ++ city ++ " (" ++ stamp ++ ")")
    ∧ (create_playlist_auto sp now city ids).createReq.user = sp.meId
    ∧ (create_playlist_auto sp now city ids).addReq.uris = ids
    ∧ (create_playlist_auto sp now city ids).addReq.playlistId
        = (sp.createPlaylist (create_playlist_auto sp now city ids).createReq).id
    ∧ (create_playlist_auto sp now city ids).link
        = (sp.createPlaylist (create_playlist_auto sp now city ids).createReq).link := by
  refine ⟨rfl, ⟨strftime_md_hm now, ?_, rfl⟩, rfl, rfl, rfl, rfl⟩
  unfold strftime_md_hm
  rw [String.length_append, String.length_append, String.length_append,
    String.length_append, String.length_append, String.length_append,
    pad2_length _ (by omega), pad2_length _ (by omega),
    pad2_length _ (by omega), pad2_length _ (by omega)]
  decide

/-- Witness for C9: ten URIs published for Seoul at 10/12 09:30. -/
theorem playlist_publisher_requests_witness :
    ((10 ≤ 12 ∧ 12 ≤ 31 ∧ 9 ≤ 23 ∧ 30 ≤ 59)
      ∧ (create_playlist_auto ⟨"user1", fun _ => ⟨"pl1", "link1"⟩⟩ ⟨10, 12, 9, 30⟩ "Seoul"
          ["u1", "u2", "u3", "u4", "u5", "u6", "u7", "u8", "u9", "u10"]).createReq.isPublic = false)
    ∧ (create_playlist_auto ⟨"user1", fun _ => ⟨"pl1", "link1"⟩⟩ ⟨10, 12, 9, 30⟩ "Seoul"
        ["u1", "u2", "u3", "u4", "u5", "u6", "u7", "u8", "u9", "u10"]).addReq.uris
      = ["u1", "u2", "u3", "u4", "u5", "u6", "u7", "u8", "u9", "u10"] :=
  ⟨⟨⟨by decide, by decide, by decide, by decide⟩,
    (playlist_publisher_requests ⟨"user1", fun _ => ⟨"pl1", "link1"⟩⟩ ⟨10, 12, 9, 30⟩ "Seoul"
      ["u1", "u2", "u3", "u4", "u5", "u6", "u7", "u8", "u9", "u10"]
      (by decide) (by decide) (by decide) (by decide)).1⟩,
    (playlist_publisher_requests ⟨"user1", fun _ => ⟨"pl1", "link1"⟩⟩ ⟨10, 12, 9, 30⟩ "Seoul"
      ["u1", "u2", "u3", "u4", "u5", "u6", "u7", "u8", "u9", "u10"]
      (by decide) (by decide) (by decide) (by decide)).2.2.2.1⟩
